import Mathlib

/-!
# Verification of the greythr-attendance-system session bridge

A shallow embedding of `greythr_api.py` and the dispatch logic of `app.py`
from the `free-render-server` repository, together with theorems settling the
frozen claims about configuration loading, the browser-based session
acquisition, the cookie bridge into the HTTP client, the attendance actuation
call, and the dispatch correlation identifiers.

External library behaviour that the source calls into (Python's
`base64.b64decode`, `bytes.decode("utf-8")`, decimal formatting of an `int`,
CSS selector matching against a login form, and the `requests` cookie jar) is
modelled by explicit executable definitions; the control flow of the two
source files is embedded directly.
-/

namespace GreytHR

/-! ## String helpers (Python `in`, `.lower()`, `.endswith`, `.rstrip`) -/

/-- Test whether `pat` is a prefix of the second list (on character lists). -/
def charsHavePre : List Char → List Char → Bool
  | [], _ => true
  | _ :: _, [] => false
  | p :: ps, c :: cs => p == c && charsHavePre ps cs

/-- Python's substring containment `pat in s`, on character lists. -/
def charsHaveSub (pat : List Char) : List Char → Bool
  | [] => pat.isEmpty
  | c :: cs => charsHavePre pat (c :: cs) || charsHaveSub pat cs

/-- Python's substring containment `pat in s` on strings. -/
def strHasSub (s pat : String) : Bool := charsHaveSub pat.data s.data

/-- Python `str.lower()` restricted to the ASCII range (URLs and the
selector/name strings handled by the source are ASCII). -/
def strLower (s : String) : String := ⟨s.data.map Char.toLower⟩

/-- Python `str.endswith('/')`. -/
def endsWithSlash (s : String) : Bool :=
  match s.data.getLast? with
  | some c => c == '/'
  | none => false

/-- Python `str.rstrip('/')`: drop every trailing `/`. -/
def rstripSlash (s : String) : String :=
  ⟨(s.data.reverse.dropWhile (fun c => c == '/')).reverse⟩

/-! ## Python `base64.b64decode` and `bytes.decode("utf-8")`

Models the stdlib calls made at `greythr_api.py:67`.  `b64decode` in its
default (lenient) mode discards characters outside the base64 alphabet, treats
`=` as terminating the data, and fails on incorrect padding; the UTF-8 decoder
is the strict validator (rejecting malformed sequences, overlongs and
surrogates). -/

/-- Value of a base64 alphabet character, `none` outside the alphabet. -/
def b64Val (c : Char) : Option Nat :=
  let n := c.toNat
  if 65 ≤ n ∧ n ≤ 90 then some (n - 65)
  else if 97 ≤ n ∧ n ≤ 122 then some (n - 71)
  else if 48 ≤ n ∧ n ≤ 57 then some (n + 4)
  else if n = 43 then some 62
  else if n = 47 then some 63
  else none

/-- Decode one full base64 quad into three bytes. -/
def b64Quad (a b c d : Nat) : List Nat :=
  [a * 4 + b / 16, (b % 16) * 16 + c / 4, (c % 4) * 64 + d]

/-- Decode a run of 6-bit values (with `pads` trailing `=` signs) into bytes;
`none` on incorrect padding, mirroring `binascii.Error`. -/
def b64Groups : List Nat → Nat → Option (List Nat)
  | [], _ => some []
  | [_], _ => none
  | [a, b], pads => if 2 ≤ pads then some [a * 4 + b / 16] else none
  | [a, b, c], pads =>
      if 1 ≤ pads then some [a * 4 + b / 16, (b % 16) * 16 + c / 4] else none
  | a :: b :: c :: d :: rest, pads =>
      (b64Groups rest pads).map (fun bs => b64Quad a b c d ++ bs)

/-- Python `base64.b64decode` (lenient mode) to a byte list. -/
def b64Decode (s : String) : Option (List Nat) :=
  let cleaned := s.data.filter (fun c => (b64Val c).isSome || c == '=')
  let dataVals := (cleaned.takeWhile (fun c => c != '=')).filterMap b64Val
  let pads := (cleaned.dropWhile (fun c => c != '=')).countP (fun c => c == '=')
  b64Groups dataVals pads

/-- UTF-8 continuation byte test. -/
def utf8Cont (n : Nat) : Bool := 128 ≤ n && n ≤ 191

/-- Fuelled strict UTF-8 decoder (fuel bounds the number of decoded
characters; one byte of input is always consumed per step, so the input
length is sufficient fuel). -/
def utf8DecodeAux : Nat → List Nat → Option (List Char)
  | _, [] => some []
  | 0, _ :: _ => none
  | fuel + 1, b :: rest =>
    if b < 128 then
      (utf8DecodeAux fuel rest).map (fun cs => Char.ofNat b :: cs)
    else if 194 ≤ b && b ≤ 223 then
      match rest with
      | c :: rest2 =>
        if utf8Cont c then
          (utf8DecodeAux fuel rest2).map
            (fun cs => Char.ofNat ((b - 192) * 64 + (c - 128)) :: cs)
        else none
      | [] => none
    else if 224 ≤ b && b ≤ 239 then
      match rest with
      | c :: d :: rest3 =>
        if utf8Cont c && utf8Cont d && (b != 224 || 160 ≤ c) && (b != 237 || c ≤ 159) then
          (utf8DecodeAux fuel rest3).map
            (fun cs => Char.ofNat ((b - 224) * 4096 + (c - 128) * 64 + (d - 128)) :: cs)
        else none
      | _ => none
    else if 240 ≤ b && b ≤ 244 then
      match rest with
      | c :: d :: e :: rest4 =>
        if utf8Cont c && utf8Cont d && utf8Cont e && (b != 240 || 144 ≤ c)
            && (b != 244 || c ≤ 143) then
          (utf8DecodeAux fuel rest4).map
            (fun cs =>
              Char.ofNat ((b - 240) * 262144 + (c - 128) * 4096 + (d - 128) * 64 + (e - 128)) :: cs)
        else none
      | _ => none
    else none

/-- Python `bytes.decode("utf-8")` as an `Option`. -/
def utf8Decode (bs : List Nat) : Option String :=
  (utf8DecodeAux bs.length bs).map (fun cs => ⟨cs⟩)

/-- `base64.b64decode(pw).decode('utf-8')` as performed at
`greythr_api.py:67`; `none` exactly when the Python call raises. -/
def decodeSecret (s : String) : Option String := (b64Decode s).bind utf8Decode

/-! ## Configuration loading (`GreytHRAttendanceAPI.__init__`, lines 32-92) -/

/-- The environment variables read by `__init__` via `os.getenv`. -/
structure Env where
  greythrUrl : Option String
  greythrUsername : Option String
  greythrPassword : Option String
  telegramBotToken : Option String
  telegramChatId : Option String
deriving DecidableEq, Repr

/-- Observable side effect kind during construction; `__init__` touches only
the logger (no browser launch, no network call). -/
inductive Effect
  | log
  | network
  | browser
deriving DecidableEq, Repr

/-- The configuration state assembled by a successful `__init__`. -/
structure Config where
  base_url : String
  greythr_username : String
  greythr_password : String
  api_base : String
  attendance_api : String
  telegram_bot_token : String
  telegram_chat_id : String
deriving DecidableEq, Repr

/-- Result of running `__init__`: a `ValueError` message or a `Config`,
plus the trace of side effects it performed. -/
structure InitRun where
  outcome : Except String Config
  effects : List Effect
deriving Repr

/-- Python truthiness of `os.getenv(..)`: `None` and the empty string both
fail the `if not value` checks in `__init__`. -/
def truthy : Option String → Option String
  | none => none
  | some s => if s.isEmpty then none else some s

/-- Embedding of `GreytHRAttendanceAPI.__init__` (greythr_api.py lines
32-92): required environment variables checked in source order, the base URL
normalized to a trailing slash, the base64 password decoded last, the derived
API endpoints assembled.  Every emitted effect is a log write. -/
def GreytHRInit (env : Env) : InitRun :=
  match truthy env.greythrUrl with
  | none => ⟨.error "GREYTHR_URL environment variable is required", [.log, .log]⟩
  | some url0 =>
    let base_url := if endsWithSlash url0 then url0 else url0 ++ "/"
    match truthy env.greythrUsername with
    | none => ⟨.error "GREYTHR_USERNAME environment variable is required", [.log, .log]⟩
    | some uname =>
      match truthy env.greythrPassword with
      | none => ⟨.error "GREYTHR_PASSWORD environment variable is required", [.log, .log]⟩
      | some pwB64 =>
        match truthy env.telegramBotToken with
        | none => ⟨.error "TELEGRAM_BOT_TOKEN environment variable is required", [.log, .log]⟩
        | some tok =>
          match truthy env.telegramChatId with
          | none => ⟨.error "TELEGRAM_CHAT_ID environment variable is required", [.log, .log]⟩
          | some chat =>
            match decodeSecret pwB64 with
            | none =>
              ⟨.error "GREYTHR_PASSWORD must be a valid base64 encoded string", [.log, .log]⟩
            | some pw =>
              let api_base := rstripSlash base_url ++ "/v3/api"
              ⟨.ok { base_url := base_url
                     greythr_username := uname
                     greythr_password := pw
                     api_base := api_base
                     attendance_api := api_base ++ "/attendance/mark-attendance"
                     telegram_bot_token := tok
                     telegram_chat_id := chat },
               [.log, .log, .log, .log, .log]⟩

/-- Did construction raise (the spec's `ConfigurationError`)? -/
def InitRun.failed (r : InitRun) : Bool :=
  match r.outcome with
  | .error _ => true
  | .ok _ => false

example :
    decodeSecret "aGVsbG8=" = some "hello" := by decide

example : decodeSecret "ab" = none := by decide

example :
    (GreytHRInit ⟨some "https://corp.greythr.com", some "u", some "aGVsbG8=",
      some "tok", some "42"⟩).failed = false := by decide

example :
    (GreytHRInit ⟨none, some "u", some "aGVsbG8=", some "tok", some "42"⟩).failed = true := by
  decide

/-! ## Cookies and the session bridge (greythr_api.py lines 274-284) -/

/-- A cookie dictionary as returned by Selenium's `driver.get_cookies()`:
`name` and `value` are always present, the attributes are read with
`cookie.get(..)` and may be absent. -/
structure SeleniumCookie where
  name : String
  value : String
  domain : Option String
  path : Option String
  secure : Option Bool
deriving DecidableEq, Repr

/-- A cookie stored in the `requests` session's cookie jar. -/
structure StoredCookie where
  name : String
  value : String
  domain : Option String
  path : String
  secure : Bool
deriving DecidableEq, Repr

/-- The arguments of the `self.session.cookies.set(..)` call at lines
278-284: name and value verbatim, `cookie.get('domain')`,
`cookie.get('path', '/')`, `cookie.get('secure', False)`. -/
def bridgeCookie (c : SeleniumCookie) : StoredCookie :=
  { name := c.name
    value := c.value
    domain := c.domain
    path := c.path.getD "/"
    secure := c.secure.getD false }

/-- The identity of a cookie inside a `requests` cookie jar (the jar is keyed
by name, domain and path; setting a cookie replaces any existing cookie with
the same key). -/
def cookieKey (sc : StoredCookie) : String × Option String × String :=
  (sc.name, sc.domain, sc.path)

/-- Model of the `requests` jar's `cookies.set`: drop any cookie with the
same (name, domain, path) key, then add the new one. -/
def cookiesSet (jar : List StoredCookie) (sc : StoredCookie) : List StoredCookie :=
  jar.filter (fun d => decide (cookieKey d ≠ cookieKey sc)) ++ [sc]

/-- The cookie-transfer loop at lines 277-284: each captured Selenium cookie
is set on the requests session in order. -/
def transferCookies (jar : List StoredCookie) (cs : List SeleniumCookie) : List StoredCookie :=
  cs.foldl (fun j c => cookiesSet j (bridgeCookie c)) jar

/-- Key a Selenium cookie would occupy in the jar after bridging. -/
def bridgedKey (c : SeleniumCookie) : String × Option String × String :=
  cookieKey (bridgeCookie c)

/-! ## The login page model and the username selector fallback
(greythr_api.py lines 216-244) -/

/-- An `<input>` element of the login form (its `name` and `type`
attributes). -/
structure InputField where
  name : String
  type : String
deriving DecidableEq, Repr

/-- The four CSS selectors of `username_selectors` (lines 216-221), in
source order. -/
inductive UsernameSelector
  | nameUser
  | nameEmail
  | typeEmail
  | firstTextInput
deriving DecidableEq, Repr

/-- The ordered selector list `username_selectors`. -/
def usernameSelectors : List UsernameSelector :=
  [.nameUser, .nameEmail, .typeEmail, .firstTextInput]

/-- Resolution of one CSS selector against the form, modelling
`input[name*='user']`, `input[name*='email']`, `input[type='email']` and
the "first text input" heuristic of `input[type='text']:first-of-type`. -/
def matchSelector (inputs : List InputField) : UsernameSelector → Option InputField
  | .nameUser => inputs.find? (fun i => strHasSub i.name "user")
  | .nameEmail => inputs.find? (fun i => strHasSub i.name "email")
  | .typeEmail => inputs.find? (fun i => i.type == "email")
  | .firstTextInput => inputs.find? (fun i => i.type == "text")

/-- The selector loop at lines 223-232: try each selector in order and keep
the first element that resolves. -/
def findUsernameField (inputs : List InputField) : Option InputField :=
  match matchSelector inputs .nameUser with
  | some f => some f
  | none =>
    match matchSelector inputs .nameEmail with
    | some f => some f
    | none =>
      match matchSelector inputs .typeEmail with
      | some f => some f
      | none => matchSelector inputs .firstTextInput

/-- Model of `driver.find_element(By.CSS_SELECTOR, "input[type='password']")`
at line 240. -/
def findPasswordField (inputs : List InputField) : Option InputField :=
  inputs.find? (fun i => i.type == "password")

/-- The post-submit check at line 264:
`"dashboard" in url.lower() or "home" in url.lower()`. -/
def urlLooksLoggedIn (url : String) : Bool :=
  strHasSub (strLower url) "dashboard" || strHasSub (strLower url) "home"

/-! ## The acquisition run (`login_and_get_cookies`, lines 125-319) -/

/-- The external world one acquisition run interacts with: availability of
the automation library, whether the browser launches and the navigation
completes, the login form's inputs, presence of a submit button, the URL
after submitting, and the cookies the browser holds afterwards. -/
structure World where
  seleniumAvailable : Bool
  launchOk : Bool
  navOk : Bool
  inputs : List InputField
  hasSubmitButton : Bool
  postSubmitUrl : String
  cookies : List SeleniumCookie
deriving Repr

/-- Which exit path `login_and_get_cookies` took (each corresponds to a
distinct `return False` / `return True` with its own log message). -/
inductive LoginReason
  | success
  | seleniumUnavailable
  | launchFailure
  | navError
  | usernameNotFound
  | passwordNotFound
deriving DecidableEq, Repr

/-- Observable outcome of one `login_and_get_cookies` run: the returned
boolean, the exit path, whether the per-session profile/cache directories
were created and removed, whether the browser was launched and quit, the
requests-session cookie jar afterwards, whether the advisory URL check
logged a warning, and whether submission used the submit button. -/
structure LoginRun where
  result : Bool
  reason : LoginReason
  dirsCreated : Bool
  dirsRemoved : Bool
  browserLaunched : Bool
  browserClosed : Bool
  jar : List StoredCookie
  urlWarning : Bool
  submitViaButton : Bool
deriving Repr

/-- The body of the `try:` block (lines 197-304, including the `except`
clause): launch, navigate, locate fields, fill, submit, advisory URL check,
cookie extraction and transfer. -/
def loginBody (w : World) (jar : List StoredCookie) :
    Bool × LoginReason × Bool × List StoredCookie × Bool × Bool :=
  if w.launchOk then
    if w.navOk then
      match findUsernameField w.inputs with
      | none => (false, .usernameNotFound, true, jar, false, false)
      | some _ =>
        match findPasswordField w.inputs with
        | none => (false, .passwordNotFound, true, jar, false, false)
        | some _ =>
          (true, .success, true, transferCookies jar w.cookies,
            !urlLooksLoggedIn w.postSubmitUrl, w.hasSubmitButton)
    else (false, .navError, true, jar, false, false)
  else (false, .launchFailure, false, jar, false, false)

/-- Embedding of `login_and_get_cookies`: the Selenium-unavailable guard
returns before the directories are created (lines 129-131); otherwise the
unique profile and cache directories are created, the `try:` body runs, and
the `finally:` block (lines 306-319) quits the browser when one was launched
and removes both directories. -/
def loginAndGetCookies (w : World) (jar : List StoredCookie) : LoginRun :=
  if w.seleniumAvailable then
    let b := loginBody w jar
    { result := b.1
      reason := b.2.1
      dirsCreated := true
      dirsRemoved := true
      browserLaunched := b.2.2.1
      browserClosed := b.2.2.1
      jar := b.2.2.2.1
      urlWarning := b.2.2.2.2.1
      submitViaButton := b.2.2.2.2.2 }
  else
    { result := false
      reason := .seleniumUnavailable
      dirsCreated := false
      dirsRemoved := false
      browserLaunched := false
      browserClosed := false
      jar := jar
      urlWarning := false
      submitViaButton := false }

/-! ## The actuation call (`mark_attendance`, lines 321-411) -/

/-- The attendance action, `"Signin"` or `"Signout"`. -/
inductive Action
  | Signin
  | Signout
deriving DecidableEq, Repr

/-- What the bridged HTTP client's POST produces: an HTTP response with a
status code and body, or a raised transport exception. -/
inductive HttpResult
  | response (status : Nat) (body : String)
  | exn (detail : String)
deriving DecidableEq, Repr

/-- The three-way classification embodied in the branches at lines 367-411:
the success branch, the non-200 branch (its notification carries
`HTTP {status_code}`), and the exception branch (its notification carries
`str(e)[:100]` and no status code). -/
inductive OutcomeStatus
  | success
  | rejected (status : Nat)
  | error (detail : String)
deriving DecidableEq, Repr

/-- Observable outcome of one `mark_attendance` call: the returned boolean,
the outcome classification, and how many notifications were sent (the
start notification plus exactly one end notification). -/
structure MarkRun where
  result : Bool
  outcome : OutcomeStatus
  notified : Nat
deriving DecidableEq, Repr

/-- Embedding of `mark_attendance`: one POST through the bridged client,
`status == 200` yields success and `return True`; any other status yields
the rejected branch carrying the status code and `return False`; a raised
exception yields the error branch carrying the truncated exception text and
`return False`. -/
def markAttendance (hr : HttpResult) : MarkRun :=
  match hr with
  | .response s _ => if s = 200 then ⟨true, .success, 2⟩ else ⟨false, .rejected s, 2⟩
  | .exn e => ⟨false, .error (e.take 100), 2⟩

/-! ## Dispatch front end (`app.py` lines 96-150) and per-session
directories (greythr_api.py lines 153-156) -/

/-- The endpoint's tag for an action, as used in
`request_id = f"signin-{int(time.time())}"`. -/
def actionTag : Action → String
  | .Signin => "signin"
  | .Signout => "signout"

/-- Decimal digits of `n`, most significant first (fuelled; models Python's
decimal formatting of a nonnegative `int`). -/
def natDecimalAux : Nat → Nat → List Char
  | 0, _ => []
  | fuel + 1, n =>
    if n < 10 then [Char.ofNat (48 + n)]
    else natDecimalAux fuel (n / 10) ++ [Char.ofNat (48 + n % 10)]

/-- Python `str(n)` for a nonnegative int. -/
def natDecimal (n : Nat) : String := ⟨natDecimalAux (n + 1) n⟩

/-- The correlation identifier `f"{tag}-{int(time.time())}"` assigned by the
`/signin` and `/signout` handlers (app.py lines 99 and 127). -/
def requestIdOf (a : Action) (t : Nat) : String :=
  actionTag a ++ "-" ++ natDecimal t

/-- One trigger invocation: its arrival order, action, and the epoch second
`int(time.time())` observed by its handler. -/
structure Invocation where
  arrival : Nat
  action : Action
  timestamp : Nat
deriving DecidableEq, Repr

/-- The correlation identifier the invocation receives. -/
def Invocation.correlationId (i : Invocation) : String :=
  requestIdOf i.action i.timestamp

/-- The profile directory `user_data_dir` of line 155. -/
def userDataDirOf (sessionId : String) : String := "/tmp/chromium-" ++ sessionId

/-- The cache directory `cache_dir` of line 156. -/
def cacheDirOf (sessionId : String) : String := "/tmp/chromium-cache-" ++ sessionId

example : natDecimal 1759276800 = "1759276800" := by decide

example :
    (loginAndGetCookies
      ⟨true, true, true, [⟨"", "email"⟩, ⟨"", "password"⟩], false, "https://x/y", []⟩
      []).result = true := by decide

example : (markAttendance (.response 401 "")).outcome = .rejected 401 := by decide

/-! ## Lemmas about the cookie jar -/

lemma mem_cookiesSet_self (jar : List StoredCookie) (sc : StoredCookie) :
    sc ∈ cookiesSet jar sc := by
  simp [cookiesSet]

lemma mem_cookiesSet_of_ne (jar : List StoredCookie) (sc d : StoredCookie)
    (hk : cookieKey d ≠ cookieKey sc) (hd : d ∈ jar) : d ∈ cookiesSet jar sc := by
  simp only [cookiesSet, List.mem_append, List.mem_filter]
  exact Or.inl ⟨hd, by simpa using hk⟩

lemma transferCookies_cons (jar : List StoredCookie) (c : SeleniumCookie)
    (cs : List SeleniumCookie) :
    transferCookies jar (c :: cs) = transferCookies (cookiesSet jar (bridgeCookie c)) cs := by
  simp [transferCookies]

lemma mem_transferCookies_of_fresh_key (cs : List SeleniumCookie) :
    ∀ (jar : List StoredCookie) (sc : StoredCookie),
      (∀ c ∈ cs, cookieKey sc ≠ bridgedKey c) → sc ∈ jar → sc ∈ transferCookies jar cs := by
  induction cs with
  | nil => intro jar sc _ h; simpa [transferCookies] using h
  | cons c cs ih =>
    intro jar sc hk hm
    rw [transferCookies_cons]
    exact ih _ _ (fun c' hc' => hk c' (by simp [hc']))
      (mem_cookiesSet_of_ne _ _ _ (hk c (by simp)) hm)

lemma bridge_mem_transferCookies (cs : List SeleniumCookie) :
    ∀ (jar : List StoredCookie) (c : SeleniumCookie),
      c ∈ cs → (cs.map bridgedKey).Nodup → bridgeCookie c ∈ transferCookies jar cs := by
  induction cs with
  | nil => simp
  | cons c' cs ih =>
    intro jar c hc hnd
    rw [List.map_cons, List.nodup_cons] at hnd
    rw [transferCookies_cons]
    rcases List.mem_cons.mp hc with rfl | hc
    · refine mem_transferCookies_of_fresh_key cs _ _ ?_ (mem_cookiesSet_self _ _)
      intro c2 hc2 heq
      have hkeys : bridgedKey c = bridgedKey c2 := heq
      exact hnd.1 (hkeys ▸ List.mem_map_of_mem bridgedKey hc2)
    · exact ih _ _ hc hnd.2

/-- Claim C1: the bridge stores, for every captured cookie, a cookie in the
HTTP client with the same name and value and with domain, path and secure
flag identical to those captured from the browser (captured cookies carry
all three attributes, and a browser cookie jar never holds two cookies with
the same (name, domain, path) identity). -/
theorem C1_bridge_preserves_cookie_attributes
    (jar : List StoredCookie) (cs : List SeleniumCookie) (c : SeleniumCookie)
    (d p : String) (b : Bool)
    (hmem : c ∈ cs) (hnodup : (cs.map bridgedKey).Nodup)
    (hd : c.domain = some d) (hp : c.path = some p) (hb : c.secure = some b) :
    ∃ sc ∈ transferCookies jar cs,
      sc.name = c.name ∧ sc.value = c.value ∧ sc.domain = some d ∧
        sc.path = p ∧ sc.secure = b := by
  refine ⟨bridgeCookie c, bridge_mem_transferCookies cs jar c hmem hnodup,
    rfl, rfl, ?_, ?_, ?_⟩
  · simp [bridgeCookie, hd]
  · simp [bridgeCookie, hp]
  · simp [bridgeCookie, hb]

set_option maxRecDepth 4000 in
/-- Witness for C1: a concrete two-cookie capture, bridged into an empty
jar, preserves the first cookie's attributes exactly. -/
theorem C1_bridge_preserves_cookie_attributes_witness :
    ∃ sc ∈ transferCookies []
        [⟨"access_token", "tok123", some ".greythr.com", some "/", some true⟩,
         ⟨"PLAY_SESSION", "ps9", some "corp.greythr.com", some "/v3", some false⟩],
      sc.name = "access_token" ∧ sc.value = "tok123" ∧
        sc.domain = some ".greythr.com" ∧ sc.path = "/" ∧ sc.secure = true := by
  have h := C1_bridge_preserves_cookie_attributes []
      [⟨"access_token", "tok123", some ".greythr.com", some "/", some true⟩,
       ⟨"PLAY_SESSION", "ps9", some "corp.greythr.com", some "/v3", some false⟩]
      ⟨"access_token", "tok123", some ".greythr.com", some "/", some true⟩
      ".greythr.com" "/" true (by decide) (by decide) rfl rfl rfl
  simpa using h

/-- Claim C2: every `mark_attendance` invocation is classified three ways:
HTTP 200 yields the success outcome, any other status yields the distinct
rejected outcome carrying the original status code, and a transport
exception yields the distinct error outcome carrying the exception detail
(truncated to 100 characters, as in the source) and no status code. -/
theorem C2_outcome_classification (s : Nat) (body e : String) (hs : s ≠ 200) :
    (markAttendance (.response 200 body)).outcome = .success
    ∧ (markAttendance (.response 200 body)).result = true
    ∧ (markAttendance (.response s body)).outcome = .rejected s
    ∧ (markAttendance (.response s body)).result = false
    ∧ (markAttendance (.exn e)).outcome = .error (e.take 100)
    ∧ (markAttendance (.exn e)).result = false
    ∧ (∀ s', OutcomeStatus.rejected s' ≠ .success)
    ∧ (∀ d, OutcomeStatus.error d ≠ .success)
    ∧ (∀ s' d, OutcomeStatus.rejected s' ≠ OutcomeStatus.error d) := by
  refine ⟨rfl, rfl, ?_, ?_, rfl, rfl, ?_, ?_, ?_⟩ <;> simp [markAttendance, hs]

set_option maxRecDepth 4000 in
/-- Witness for C2: a 401 response is classified rejected with status 401
and a connection-refused exception is classified error with the detail and
no status code. -/
theorem C2_outcome_classification_witness :
    (markAttendance (.response 401 "")).outcome = .rejected 401
    ∧ (markAttendance (.exn "connection refused")).outcome = .error "connection refused"
    ∧ (markAttendance (.response 200 "ok")).outcome = .success := by
  have h := C2_outcome_classification 401 "" "connection refused" (by decide)
  refine ⟨h.2.2.1, ?_, h.1⟩
  have ht : ("connection refused".take 100) = "connection refused" := by decide
  simpa [ht] using h.2.2.2.2.1

/-! ## Lemmas about configuration loading -/

lemma truthy_ne_none {x : Option String} {u : String} (h : truthy x = some u) :
    x ≠ none := by
  intro hx
  rw [hx] at h
  simp [truthy] at h

/-- Every effect `__init__` performs is a log write. -/
lemma GreytHRInit_effects_log (env : Env) :
    ∀ e ∈ (GreytHRInit env).effects, e = .log := by
  unfold GreytHRInit
  cases truthy env.greythrUrl with
  | none => simp
  | some u =>
    cases truthy env.greythrUsername with
    | none => simp
    | some n =>
      cases truthy env.greythrPassword with
      | none => simp
      | some p =>
        cases truthy env.telegramBotToken with
        | none => simp
        | some tok =>
          cases truthy env.telegramChatId with
          | none => simp
          | some chat =>
            rcases hds : decodeSecret p with _ | pw <;> simp [hds]

/-- Construction fails whenever any of the five environment variables read
by `__init__` is absent. -/
lemma GreytHRInit_failed_of_missing (env : Env)
    (h : env.greythrUrl = none ∨ env.greythrUsername = none ∨
      env.greythrPassword = none ∨ env.telegramBotToken = none ∨
      env.telegramChatId = none) :
    (GreytHRInit env).failed = true := by
  unfold GreytHRInit
  cases h1 : truthy env.greythrUrl with
  | none => rfl
  | some u =>
    cases h2 : truthy env.greythrUsername with
    | none => rfl
    | some n =>
      cases h3 : truthy env.greythrPassword with
      | none => rfl
      | some p =>
        cases h4 : truthy env.telegramBotToken with
        | none => rfl
        | some tok =>
          cases h5 : truthy env.telegramChatId with
          | none => rfl
          | some chat =>
            exfalso
            rcases h with h | h | h | h | h
            · exact truthy_ne_none h1 h
            · exact truthy_ne_none h2 h
            · exact truthy_ne_none h3 h
            · exact truthy_ne_none h4 h
            · exact truthy_ne_none h5 h

/-- Claim C3: omitting any of the four required configuration values
(portal base URL, username, secret, notification target) makes construction
fail with a configuration error, and construction performs no network or
browser activity on any path. -/
theorem C3_required_config_fail_fast (env : Env) :
    (env.greythrUrl = none → (GreytHRInit env).failed = true)
    ∧ (env.greythrUsername = none → (GreytHRInit env).failed = true)
    ∧ (env.greythrPassword = none → (GreytHRInit env).failed = true)
    ∧ (env.telegramChatId = none → (GreytHRInit env).failed = true)
    ∧ (∀ e ∈ (GreytHRInit env).effects, e ≠ .network ∧ e ≠ .browser) := by
  refine ⟨fun h => GreytHRInit_failed_of_missing env (Or.inl h),
    fun h => GreytHRInit_failed_of_missing env (Or.inr (Or.inl h)),
    fun h => GreytHRInit_failed_of_missing env (Or.inr (Or.inr (Or.inl h))),
    fun h => GreytHRInit_failed_of_missing env
      (Or.inr (Or.inr (Or.inr (Or.inr h)))),
    fun e he => ?_⟩
  have hl := GreytHRInit_effects_log env e he
  subst hl
  exact ⟨by decide, by decide⟩

/-- Witness for C3: an environment missing only the portal URL fails
construction with no network or browser activity. -/
theorem C3_required_config_fail_fast_witness :
    (GreytHRInit ⟨none, some "user@corp.com", some "aGVsbG8=", some "tok",
        some "42"⟩).failed = true
    ∧ ∀ e ∈ (GreytHRInit ⟨none, some "user@corp.com", some "aGVsbG8=",
        some "tok", some "42"⟩).effects, e ≠ .network ∧ e ≠ .browser := by
  have h := C3_required_config_fail_fast
    ⟨none, some "user@corp.com", some "aGVsbG8=", some "tok", some "42"⟩
  exact ⟨h.1 rfl, h.2.2.2.2⟩

/-- Counterexample to C4: with the portal URL, username and a well-formed
base64 secret all present, construction still fails when the notification
bot token and chat id are absent — they are required, not optional
(greythr_api.py lines 55-63 raise for each). -/
theorem C4_counterexample :
    (GreytHRInit ⟨some "https://corp.greythr.com", some "user@corp.com",
        some "aGVsbG8=", none, none⟩).failed = true
    ∧ decodeSecret "aGVsbG8=" = some "hello" := by
  exact ⟨by decide, by decide⟩

/-- Claim C4 as amended: the notification bot token and chat identifier are
required configuration — construction fails whenever either is absent, even
when the portal base URL, username and secret are present and non-empty. -/
theorem C4_notification_config_required (u n p : String) (tok chat : Option String)
    (_hu : u.isEmpty = false) (_hn : n.isEmpty = false) (_hp : p.isEmpty = false)
    (h : tok = none ∨ chat = none) :
    (GreytHRInit ⟨some u, some n, some p, tok, chat⟩).failed = true := by
  rcases h with h | h
  · subst h
    exact GreytHRInit_failed_of_missing _ (Or.inr (Or.inr (Or.inr (Or.inl rfl))))
  · subst h
    exact GreytHRInit_failed_of_missing _ (Or.inr (Or.inr (Or.inr (Or.inr rfl))))

/-- Witness for the amended C4: a concrete environment with the three portal
values present and the chat id absent fails construction. -/
theorem C4_notification_config_required_witness :
    (GreytHRInit ⟨some "https://corp.greythr.com", some "user@corp.com",
        some "aGVsbG8=", some "tok", none⟩).failed = true :=
  C4_notification_config_required "https://corp.greythr.com" "user@corp.com"
    "aGVsbG8=" (some "tok") none rfl rfl rfl (Or.inr rfl)

/-- Claim C8: whenever the secret is present but its base64 decoding fails
(Python's `b64decode` raising, or the decoded bytes not being valid UTF-8),
construction fails with a configuration error before any login attempt: no
browser is launched and no network call is made. -/
theorem C8_malformed_secret_fails_before_login (env : Env) (pw : String)
    (hpre : env.greythrPassword = some pw) (hbad : decodeSecret pw = none) :
    (GreytHRInit env).failed = true
    ∧ ∀ e ∈ (GreytHRInit env).effects, e ≠ .network ∧ e ≠ .browser := by
  refine ⟨?_, fun e he => ?_⟩
  · unfold GreytHRInit
    cases h1 : truthy env.greythrUrl with
    | none => rfl
    | some u =>
      cases h2 : truthy env.greythrUsername with
      | none => rfl
      | some n =>
        cases h3 : truthy env.greythrPassword with
        | none => rfl
        | some p =>
          have hpw : p = pw := by
            rw [hpre] at h3
            by_cases he : pw.isEmpty <;> simp [truthy, he] at h3
            exact h3.symm
          subst hpw
          cases h4 : truthy env.telegramBotToken with
          | none => rfl
          | some tok =>
            cases h5 : truthy env.telegramChatId with
            | none => rfl
            | some chat =>
              simp [hbad, InitRun.failed]
  · have hl := GreytHRInit_effects_log env e he
    subst hl
    exact ⟨by decide, by decide⟩

/-- Witness for C8: the string "ab" is rejected by base64 decoding
(incorrect padding), and an otherwise complete environment carrying it as
the secret fails construction with no network or browser activity. -/
theorem C8_malformed_secret_fails_before_login_witness :
    decodeSecret "ab" = none
    ∧ (GreytHRInit ⟨some "https://corp.greythr.com", some "user@corp.com",
        some "ab", some "tok", some "42"⟩).failed = true := by
  have h := C8_malformed_secret_fails_before_login
    ⟨some "https://corp.greythr.com", some "user@corp.com", some "ab",
      some "tok", some "42"⟩ "ab" rfl (by decide)
  exact ⟨by decide, h.1⟩

/-! ## Lemmas about the acquisition run -/

/-- Reduction of a fully successful acquisition run. -/
lemma loginRun_success (w : World) (jar : List StoredCookie)
    (hav : w.seleniumAvailable = true) (hl : w.launchOk = true) (hn : w.navOk = true)
    (f g : InputField) (hf : findUsernameField w.inputs = some f)
    (hg : findPasswordField w.inputs = some g) :
    loginAndGetCookies w jar =
      { result := true
        reason := .success
        dirsCreated := true
        dirsRemoved := true
        browserLaunched := true
        browserClosed := true
        jar := transferCookies jar w.cookies
        urlWarning := !urlLooksLoggedIn w.postSubmitUrl
        submitViaButton := w.hasSubmitButton } := by
  simp [loginAndGetCookies, hav, loginBody, hl, hn, hf, hg]

/-- Reduction of a run in which no username selector resolves. -/
lemma loginRun_usernameNotFound (w : World) (jar : List StoredCookie)
    (hav : w.seleniumAvailable = true) (hl : w.launchOk = true) (hn : w.navOk = true)
    (hf : findUsernameField w.inputs = none) :
    loginAndGetCookies w jar =
      { result := false
        reason := .usernameNotFound
        dirsCreated := true
        dirsRemoved := true
        browserLaunched := true
        browserClosed := true
        jar := jar
        urlWarning := false
        submitViaButton := false } := by
  simp [loginAndGetCookies, hav, loginBody, hl, hn, hf]

/-- The selector loop yields nothing exactly when no selector in the
ordered list resolves. -/
lemma findUsernameField_eq_none_iff (inputs : List InputField) :
    findUsernameField inputs = none ↔
      ∀ sel ∈ usernameSelectors, matchSelector inputs sel = none := by
  rcases h1 : matchSelector inputs .nameUser with _ | f1 <;>
    rcases h2 : matchSelector inputs .nameEmail with _ | f2 <;>
      rcases h3 : matchSelector inputs .typeEmail with _ | f3 <;>
        rcases h4 : matchSelector inputs .firstTextInput with _ | f4 <;>
          simp [findUsernameField, usernameSelectors, h1, h2, h3, h4]

/-- Claim C5: the username input is located by trying the ordered selector
list (name containing "user", name containing "email", input type "email",
first text input), accepting the first selector that resolves; if none
resolves the acquisition run fails on the username-not-found path; and when
some selector resolves the run succeeds regardless of which one it was. -/
theorem C5_username_selector_fallback (w : World) (jar : List StoredCookie)
    (hav : w.seleniumAvailable = true) (hl : w.launchOk = true) (hn : w.navOk = true)
    (hpw : (findPasswordField w.inputs).isSome = true) :
    (findUsernameField w.inputs = none ↔
        ∀ sel ∈ usernameSelectors, matchSelector w.inputs sel = none)
    ∧ ((findUsernameField w.inputs).isSome = true →
        (loginAndGetCookies w jar).result = true ∧
          (loginAndGetCookies w jar).reason = .success)
    ∧ ((∀ sel ∈ usernameSelectors, matchSelector w.inputs sel = none) →
        (loginAndGetCookies w jar).result = false ∧
          (loginAndGetCookies w jar).reason = .usernameNotFound)
    ∧ (∀ f, matchSelector w.inputs .nameUser = some f →
        findUsernameField w.inputs = some f)
    ∧ (∀ f, matchSelector w.inputs .nameUser = none →
        matchSelector w.inputs .nameEmail = some f →
        findUsernameField w.inputs = some f)
    ∧ (∀ f, matchSelector w.inputs .nameUser = none →
        matchSelector w.inputs .nameEmail = none →
        matchSelector w.inputs .typeEmail = some f →
        findUsernameField w.inputs = some f)
    ∧ (matchSelector w.inputs .nameUser = none →
        matchSelector w.inputs .nameEmail = none →
        matchSelector w.inputs .typeEmail = none →
        findUsernameField w.inputs = matchSelector w.inputs .firstTextInput) := by
  refine ⟨findUsernameField_eq_none_iff w.inputs, ?_, ?_, ?_, ?_, ?_, ?_⟩
  · intro h
    obtain ⟨f, hf⟩ := Option.isSome_iff_exists.mp h
    obtain ⟨g, hg⟩ := Option.isSome_iff_exists.mp hpw
    rw [loginRun_success w jar hav hl hn f g hf hg]
    exact ⟨rfl, rfl⟩
  · intro hall
    have hnone := (findUsernameField_eq_none_iff w.inputs).mpr hall
    rw [loginRun_usernameNotFound w jar hav hl hn hnone]
    exact ⟨rfl, rfl⟩
  · intro f h
    simp [findUsernameField, h]
  · intro f h1 h2
    simp [findUsernameField, h1, h2]
  · intro f h1 h2 h3
    simp [findUsernameField, h1, h2, h3]
  · intro h1 h2 h3
    simp [findUsernameField, h1, h2, h3]

/-- Witness for C5: a simulated login page exposing only an email-typed
input and a password input is acquired successfully (the third selector is
the one that resolves). -/
theorem C5_username_selector_fallback_witness :
    (loginAndGetCookies
        ⟨true, true, true, [⟨"fld1", "email"⟩, ⟨"fld2", "password"⟩], true,
          "https://corp.greythr.com/v2/dashboard", []⟩ []).result = true := by
  have h := C5_username_selector_fallback
    ⟨true, true, true, [⟨"fld1", "email"⟩, ⟨"fld2", "password"⟩], true,
      "https://corp.greythr.com/v2/dashboard", []⟩ [] rfl rfl rfl (by decide)
  exact (h.2.1 (by decide)).1

/-- Claim C6: the post-submit URL check is advisory and never gates control
flow — whenever the run reaches the post-submit step, it extracts and
bridges the cookies and returns success whatever the URL is, and the
warning is logged exactly when the URL contains neither "dashboard" nor
"home". -/
theorem C6_url_check_advisory (w : World) (jar : List StoredCookie)
    (hav : w.seleniumAvailable = true) (hl : w.launchOk = true) (hn : w.navOk = true)
    (hu : (findUsernameField w.inputs).isSome = true)
    (hp : (findPasswordField w.inputs).isSome = true) :
    (loginAndGetCookies w jar).result = true
    ∧ (loginAndGetCookies w jar).reason = .success
    ∧ (loginAndGetCookies w jar).jar = transferCookies jar w.cookies
    ∧ ((loginAndGetCookies w jar).urlWarning = true ↔
        urlLooksLoggedIn w.postSubmitUrl = false) := by
  obtain ⟨f, hf⟩ := Option.isSome_iff_exists.mp hu
  obtain ⟨g, hg⟩ := Option.isSome_iff_exists.mp hp
  rw [loginRun_success w jar hav hl hn f g hf hg]
  simp

/-- Witness for C6: a post-submit URL containing neither token still yields
a successful run with the cookies bridged, with the warning logged. -/
theorem C6_url_check_advisory_witness :
    (loginAndGetCookies
        ⟨true, true, true, [⟨"login_user", "text"⟩, ⟨"pw", "password"⟩], false,
          "https://corp.greythr.com/uas/portal/auth",
          [⟨"access_token", "t1", some ".greythr.com", some "/", some true⟩]⟩
        []).result = true
    ∧ (loginAndGetCookies
        ⟨true, true, true, [⟨"login_user", "text"⟩, ⟨"pw", "password"⟩], false,
          "https://corp.greythr.com/uas/portal/auth",
          [⟨"access_token", "t1", some ".greythr.com", some "/", some true⟩]⟩
        []).urlWarning = true := by
  have h := C6_url_check_advisory
    ⟨true, true, true, [⟨"login_user", "text"⟩, ⟨"pw", "password"⟩], false,
      "https://corp.greythr.com/uas/portal/auth",
      [⟨"access_token", "t1", some ".greythr.com", some "/", some true⟩]⟩
    [] rfl rfl rfl (by decide) (by decide)
  exact ⟨h.1, h.2.2.2.mpr (by decide)⟩

/-- Claim C7: on every exit path of an acquisition run that gets past the
availability guard (success, browser launch failure, navigation timeout,
missing username or password field), the per-invocation profile and cache
directories are created and then removed, and the browser is quit whenever
it was launched. -/
theorem C7_guaranteed_cleanup (w : World) (jar : List StoredCookie)
    (hav : w.seleniumAvailable = true) :
    (loginAndGetCookies w jar).dirsCreated = true
    ∧ (loginAndGetCookies w jar).dirsRemoved = true
    ∧ (loginAndGetCookies w jar).browserClosed =
        (loginAndGetCookies w jar).browserLaunched := by
  simp [loginAndGetCookies, hav]

/-- Witness for C7: four concrete runs — browser launch failure, navigation
timeout, missing username field, and full success — all remove the
per-invocation directories. -/
theorem C7_guaranteed_cleanup_witness :
    (loginAndGetCookies ⟨true, false, true, [], false, "", []⟩ []).dirsRemoved = true
    ∧ (loginAndGetCookies ⟨true, true, false, [], false, "", []⟩ []).dirsRemoved = true
    ∧ (loginAndGetCookies ⟨true, true, true, [⟨"x", "hidden"⟩], false, "", []⟩
        []).dirsRemoved = true
    ∧ (loginAndGetCookies
        ⟨true, true, true, [⟨"user", "text"⟩, ⟨"p", "password"⟩], true,
          "https://corp.greythr.com/home", []⟩ []).dirsRemoved = true :=
  ⟨(C7_guaranteed_cleanup _ _ rfl).2.1, (C7_guaranteed_cleanup _ _ rfl).2.1,
    (C7_guaranteed_cleanup _ _ rfl).2.1, (C7_guaranteed_cleanup _ _ rfl).2.1⟩

/-- Claim C10: both core operations are total boolean-returning functions —
an acquisition run returns `true` exactly on its success path and a
`mark_attendance` call returns `true` exactly on the 200 outcome, so every
failure mode (browser error, missing field, rejected status, transport
exception) collapses to the same `False` return and the failure modes are
indistinguishable at this interface. -/
theorem C10_boolean_total_interface (w : World) (jar : List StoredCookie)
    (hr : HttpResult) :
    ((loginAndGetCookies w jar).result = true ↔
        (loginAndGetCookies w jar).reason = .success)
    ∧ ((markAttendance hr).result = true ↔ (markAttendance hr).outcome = .success)
    ∧ (markAttendance (.response 401 "")).result =
        (markAttendance (.exn "timed out")).result
    ∧ (markAttendance (.response 401 "")).result =
        (loginAndGetCookies ⟨true, true, true, [], false, "", []⟩ []).result := by
  refine ⟨?_, ?_, by decide, by decide⟩
  · by_cases h1 : w.seleniumAvailable = true
    · by_cases h2 : w.launchOk = true
      · by_cases h3 : w.navOk = true
        · rcases h4 : findUsernameField w.inputs with _ | f
          · simp [loginAndGetCookies, loginBody, h1, h2, h3, h4]
          · rcases h5 : findPasswordField w.inputs with _ | g <;>
              simp [loginAndGetCookies, loginBody, h1, h2, h3, h4, h5]
        · simp [loginAndGetCookies, loginBody, h1, h2, h3]
      · simp [loginAndGetCookies, loginBody, h1, h2]
    · simp [loginAndGetCookies, h1]
  · rcases hr with ⟨s, body⟩ | e
    · by_cases hs : s = 200 <;> simp [markAttendance, hs]
    · simp [markAttendance]

/-! ## Lemmas about correlation identifiers and per-session directories -/

/-- Numeric value of a decimal digit string (inverse of `natDecimalAux`). -/
def digitsVal (l : List Char) : Nat :=
  l.foldl (fun a c => a * 10 + (c.toNat - 48)) 0

lemma digitsVal_append_digit (l : List Char) (c : Char) :
    digitsVal (l ++ [c]) = digitsVal l * 10 + (c.toNat - 48) := by
  simp [digitsVal, List.foldl_append]

lemma char_digit_toNat (n : Nat) (h : n < 10) : (Char.ofNat (48 + n)).toNat = 48 + n := by
  interval_cases n <;> decide

lemma natDecimalAux_val : ∀ (fuel n : Nat), n < 10 ^ fuel →
    digitsVal (natDecimalAux fuel n) = n := by
  intro fuel
  induction fuel with
  | zero =>
    intro n h
    rw [pow_zero] at h
    have hn : n = 0 := by omega
    subst hn
    simp [natDecimalAux, digitsVal]
  | succ fuel ih =>
    intro n h
    by_cases h10 : n < 10
    · simp only [natDecimalAux, if_pos h10]
      show digitsVal [Char.ofNat (48 + n)] = n
      simp only [digitsVal, List.foldl_cons, List.foldl_nil, Nat.zero_mul, Nat.zero_add]
      rw [char_digit_toNat n h10]
      omega
    · simp only [natDecimalAux, if_neg h10]
      rw [digitsVal_append_digit]
      have hdiv : n / 10 < 10 ^ fuel := by
        rw [pow_succ] at h
        exact (Nat.div_lt_iff_lt_mul (by norm_num)).mpr h
      rw [ih (n / 10) hdiv, char_digit_toNat (n % 10) (Nat.mod_lt n (by norm_num))]
      omega

lemma natDecimal_lt_pow (m : Nat) : m < 10 ^ (m + 1) :=
  lt_of_lt_of_le (Nat.lt_pow_self (by norm_num) m)
    (Nat.pow_le_pow_right (by norm_num) (Nat.le_succ m))

/-- Decimal formatting of nonnegative integers is injective. -/
lemma natDecimal_injective {m n : Nat} (h : natDecimal m = natDecimal n) : m = n := by
  have hd : natDecimalAux (m + 1) m = natDecimalAux (n + 1) n := congrArg String.data h
  have hm := natDecimalAux_val (m + 1) m (natDecimal_lt_pow m)
  have hn := natDecimalAux_val (n + 1) n (natDecimal_lt_pow n)
  rw [hd] at hm
  exact hm.symm.trans hn

/-- String concatenation cancels on the left. -/
lemma strAppend_left_cancel {p x y : String} (h : p ++ x = p ++ y) : x = y := by
  have hd := congrArg String.data h
  rw [String.data_append, String.data_append] at hd
  exact String.ext (List.append_cancel_left hd)

/-- The two action tags produce disjoint correlation-identifier spaces. -/
lemma signin_tag_ne (x y : String) : "signin-" ++ x ≠ "signout-" ++ y := by
  intro h
  have hd := congrArg String.data h
  rw [String.data_append, String.data_append] at hd
  have e1 : ("signin-" : String).data = ['s', 'i', 'g', 'n', 'i', 'n', '-'] := rfl
  have e2 : ("signout-" : String).data = ['s', 'i', 'g', 'n', 'o', 'u', 't', '-'] := rfl
  rw [e1, e2] at hd
  simp only [List.cons_append, List.nil_append, List.cons.injEq] at hd
  exact absurd hd.2.2.2.2.1 (by decide)

set_option maxRecDepth 4000 in
/-- Counterexample to C9: two distinct back-to-back invocations of the same
action whose handlers observe the same epoch second (`int(time.time())`)
receive identical correlation identifiers — the id is
`f"{action}-{int(time.time())}"`, which does not distinguish concurrent
same-action invocations within one second. -/
theorem C9_counterexample :
    (⟨0, .Signin, 1759276800⟩ : Invocation) ≠ ⟨1, .Signin, 1759276800⟩
    ∧ Invocation.correlationId ⟨0, .Signin, 1759276800⟩ =
        Invocation.correlationId ⟨1, .Signin, 1759276800⟩
    ∧ Invocation.correlationId ⟨0, .Signin, 1759276800⟩ = "signin-1759276800" :=
  ⟨by decide, rfl, by decide⟩

/-- Claim C9 as amended: two concurrent trigger invocations receive
distinct correlation identifiers whenever they differ in action or in the
epoch second their handlers observe (same-action invocations within the
same second collide); and acquisitions with distinct session identifiers
use distinct profile directories and distinct cache directories. -/
theorem C9_distinct_ids_and_dirs (i j : Invocation) (s t : String)
    (hij : i.action ≠ j.action ∨ i.timestamp ≠ j.timestamp) (hst : s ≠ t) :
    i.correlationId ≠ j.correlationId
    ∧ userDataDirOf s ≠ userDataDirOf t
    ∧ cacheDirOf s ≠ cacheDirOf t := by
  refine ⟨?_, fun h => hst (strAppend_left_cancel h),
    fun h => hst (strAppend_left_cancel h)⟩
  obtain ⟨ai, acti, ti⟩ := i
  obtain ⟨aj, actj, tj⟩ := j
  cases acti <;> cases actj
  · intro heq
    have ht : ti ≠ tj := by
      rcases hij with h | h
      · exact absurd rfl h
      · exact h
    simp only [Invocation.correlationId, requestIdOf, actionTag] at heq
    exact ht (natDecimal_injective (strAppend_left_cancel heq))
  · intro heq
    simp only [Invocation.correlationId, requestIdOf, actionTag] at heq
    exact signin_tag_ne _ _ heq
  · intro heq
    simp only [Invocation.correlationId, requestIdOf, actionTag] at heq
    exact signin_tag_ne _ _ heq.symm
  · intro heq
    have ht : ti ≠ tj := by
      rcases hij with h | h
      · exact absurd rfl h
      · exact h
    simp only [Invocation.correlationId, requestIdOf, actionTag] at heq
    exact ht (natDecimal_injective (strAppend_left_cancel heq))

/-- Witness for the amended C9: a Signin and a Signout invocation in the
same second receive distinct correlation identifiers, and two distinct
session identifiers give distinct profile and cache directories. -/
theorem C9_distinct_ids_and_dirs_witness :
    Invocation.correlationId ⟨0, .Signin, 1759276800⟩ ≠
      Invocation.correlationId ⟨1, .Signout, 1759276800⟩
    ∧ userDataDirOf "a1b2c3d4" ≠ userDataDirOf "e5f6a7b8"
    ∧ cacheDirOf "a1b2c3d4" ≠ cacheDirOf "e5f6a7b8" :=
  C9_distinct_ids_and_dirs ⟨0, .Signin, 1759276800⟩ ⟨1, .Signout, 1759276800⟩
    "a1b2c3d4" "e5f6a7b8" (Or.inl (by decide)) (by decide)

end GreytHR
